import Mathlib

/-!
Shallow embedding of the geometry and compositing engine of the
maisoku-obikae repository.

The embedded code comes from:
  * `src/src/components/editor/block-editor.tsx` (`createInitialBlocks`, the
    three-section layout variant, lines 208-420, and the `maskArea` rectangle
    of the `BlockEditor` component, lines 132-138);
  * `src/unnamed/part_006` (`PreviewEditor`: `embedImage`, lines 231-263, and
    `handleExport`, lines 266-604).

JavaScript numbers are modelled as exact rationals (`ℚ`); `Math.round` is
floor of `x + 1/2`; `Math.min`/`Math.max` are `min`/`max`.  Strings, page
records and company profiles are modelled structurally; nullable columns of
the `company_profiles` table (see the SQL migrations in `src/unnamed/part_010`)
become `Option` fields.  The pdf-lib draw calls performed by `handleExport`
are reified as a list of `DrawOp` values per page, in the order the code
issues them.
-/

namespace Maisoku

/-- An axis-aligned rectangle, given by origin and size. -/
structure Rect where
  x : ℚ
  y : ℚ
  w : ℚ
  h : ℚ
  deriving DecidableEq

/-- Font weights supported by a text block (`'normal' | 'bold'`). -/
inductive FontWeight
  | normal
  | bold
  deriving DecidableEq

/-- Text alignment of a text block (`'left' | 'center' | 'right'`). -/
inductive TextAlign
  | left
  | center
  | right
  deriving DecidableEq

/-- The closed set of text fields a `TextBlock` can reference
(`TextBlock['field']` in `database.types.ts` plus the fee columns added by
the later migration). -/
inductive TextField
  | company_name
  | address
  | phone
  | fax
  | email
  | contact_person
  | license_number
  | fee_ratio_landlord
  | fee_ratio_tenant
  | fee_distribution_motoduke
  | fee_distribution_kyakuzuke
  deriving DecidableEq

/-- The image fields an `ImageBlock` can reference (`'logo' | 'line_qr'`). -/
inductive ImageField
  | logo
  | line_qr
  deriving DecidableEq

/-- A text block, mirroring the `TextBlock` interface: position and size in
display space (top-left origin, y down), font size, weight and alignment. -/
structure TextBlock where
  id : String
  field : TextField
  x : ℚ
  y : ℚ
  width : ℚ
  height : ℚ
  fontSize : ℚ
  fontWeight : FontWeight
  textAlign : TextAlign
  deriving DecidableEq

/-- An image block, mirroring the `ImageBlock` interface. -/
structure ImageBlock where
  id : String
  field : ImageField
  x : ℚ
  y : ℚ
  width : ℚ
  height : ℚ
  deriving DecidableEq

/-- A block is a text block or an image block (the `Block` tagged union). -/
inductive Block
  | text (b : TextBlock)
  | image (b : ImageBlock)
  deriving DecidableEq

/-- The display-space rectangle of a block. -/
def Block.rect : Block → Rect
  | Block.text b => Rect.mk b.x b.y b.width b.height
  | Block.image b => Rect.mk b.x b.y b.width b.height

/-- A row of the `company_profiles` table, after the migrations of
`src/unnamed/part_010`: nullable columns are `Option`s, the fee percentages
are nullable integers. -/
structure CompanyProfile where
  company_name : String
  address : String
  phone : String
  fax : Option String
  email : String
  contact_person : Option String
  license_number : String
  logo_url : Option String
  line_qr_url : Option String
  fee_ratio_landlord : Option ℤ
  fee_ratio_tenant : Option ℤ
  fee_distribution_motoduke : Option ℤ
  fee_distribution_kyakuzuke : Option ℤ
  deriving DecidableEq

/-- Per-page mask settings (`MaskSettings` in `types/editor.ts`). -/
structure MaskSettings where
  bottomHeight : ℚ
  leftWidth : ℚ
  enableLShape : Bool
  deriving DecidableEq

/-- JavaScript truthiness of an optional string: `null`, `undefined` and the
empty string are falsy (used for `!!companyProfile?.logo_url` and
`if (!imageUrl)`). -/
def truthy : Option String → Bool
  | none => false
  | some s => !s.isEmpty

/-- JavaScript `Math.min` on (non-NaN) numbers: the smaller argument. -/
def jsMin (a b : ℚ) : ℚ := if a ≤ b then a else b

/-- JavaScript `Math.max`: the larger argument. -/
def jsMax (a b : ℚ) : ℚ := if a ≤ b then b else a

/-- JavaScript `Math.round` for the non-negative values used here:
round half up, i.e. the floor of `q + 1/2`. -/
def jsRound (q : ℚ) : ℚ := ((⌊q + 1 / 2⌋ : ℤ) : ℚ)

/-- Base scale of the generated fonts
(`Math.min(1, maskBottomHeight / 100)`). -/
def baseScaleOf (maskBottomHeight : ℚ) : ℚ := jsMin 1 (maskBottomHeight / 100)

/-- Company-name font size
(`Math.max(11, Math.round(16 * baseScale))`). -/
def companyNameFontSizeOf (maskBottomHeight : ℚ) : ℚ :=
  jsMax 11 (jsRound (16 * baseScaleOf maskBottomHeight))

/-- Small font size (`Math.max(8, Math.round(10 * baseScale))`). -/
def smallFontSizeOf (maskBottomHeight : ℚ) : ℚ :=
  jsMax 8 (jsRound (10 * baseScaleOf maskBottomHeight))

/-- Left column of the generated layout: company name, license number, then
the fee-ratio pair (landlord/tenant) when `feeRowPresent`, then the
fee-distribution pair when `feeDistPresent`.  This is the functional form of
the sequential `blocks.push`/`leftY +=` code of `createInitialBlocks`
(block-editor.tsx lines 285-372): `leftY` is threaded as explicit y values,
and the fee-distribution row is one line lower exactly when the fee-ratio
row was emitted. -/
def leftColumnBlocks (ts : ℕ) (textStartX columnWidth startY
    companyNameFontSize smallFontSize : ℚ)
    (feeRowPresent feeDistPresent : Bool) : List Block :=
  let companyNameHeight := companyNameFontSize + 6
  let smallLineHeight := smallFontSize + 6
  let licenseY := startY + companyNameHeight + 2
  let feeRowY := licenseY + smallLineHeight + 2
  let feeDistY := if feeRowPresent then feeRowY + smallLineHeight + 2 else feeRowY
  [Block.text (TextBlock.mk ("block-company_name-" ++ toString (ts + 2))
      TextField.company_name textStartX startY (columnWidth - 5) companyNameHeight
      companyNameFontSize FontWeight.bold TextAlign.left),
   Block.text (TextBlock.mk ("block-license_number-" ++ toString (ts + 3))
      TextField.license_number textStartX licenseY (columnWidth - 5) smallLineHeight
      smallFontSize FontWeight.normal TextAlign.left)] ++
  (if feeRowPresent then
    [Block.text (TextBlock.mk ("block-fee_ratio_landlord-" ++ toString (ts + 4))
        TextField.fee_ratio_landlord textStartX feeRowY
        ((columnWidth - 5) / 2 - 2) smallLineHeight
        smallFontSize FontWeight.normal TextAlign.left),
     Block.text (TextBlock.mk ("block-fee_ratio_tenant-" ++ toString (ts + 5))
        TextField.fee_ratio_tenant (textStartX + (columnWidth - 5) / 2) feeRowY
        ((columnWidth - 5) / 2 - 2) smallLineHeight
        smallFontSize FontWeight.normal TextAlign.left)]
   else []) ++
  (if feeDistPresent then
    [Block.text (TextBlock.mk ("block-fee_distribution_motoduke-" ++ toString (ts + 6))
        TextField.fee_distribution_motoduke textStartX feeDistY
        ((columnWidth - 5) / 2 - 2) smallLineHeight
        smallFontSize FontWeight.normal TextAlign.left),
     Block.text (TextBlock.mk ("block-fee_distribution_kyakuzuke-" ++ toString (ts + 7))
        TextField.fee_distribution_kyakuzuke (textStartX + (columnWidth - 5) / 2) feeDistY
        ((columnWidth - 5) / 2 - 2) smallLineHeight
        smallFontSize FontWeight.normal TextAlign.left)]
   else [])

/-- Right column of the generated layout: address, phone and email, stacked
top-down with a 2px gap (block-editor.tsx lines 374-417). -/
def rightColumnBlocks (ts : ℕ) (rightX startY columnWidth smallFontSize : ℚ) :
    List Block :=
  let smallLineHeight := smallFontSize + 6
  [Block.text (TextBlock.mk ("block-address-" ++ toString (ts + 8))
      TextField.address rightX startY (columnWidth - 5) smallLineHeight
      smallFontSize FontWeight.normal TextAlign.left),
   Block.text (TextBlock.mk ("block-phone-" ++ toString (ts + 9))
      TextField.phone rightX (startY + smallLineHeight + 2) (columnWidth - 5) smallLineHeight
      smallFontSize FontWeight.normal TextAlign.left),
   Block.text (TextBlock.mk ("block-email-" ++ toString (ts + 10))
      TextField.email rightX (startY + (smallLineHeight + 2) + (smallLineHeight + 2))
      (columnWidth - 5) smallLineHeight
      smallFontSize FontWeight.normal TextAlign.left)]

/-- The initial block layout generator (`createInitialBlocks`,
block-editor.tsx lines 208-420): an optional logo slot at the left edge of
the bottom band, an optional LINE-QR slot at the right edge, and between
them two text columns.  `timestamp` stands for the `Date.now()` value used
only in the generated ids. -/
def createInitialBlocks (canvasWidth canvasHeight maskBottomHeight maskLeftWidth : ℚ)
    (enableLShape : Bool) (companyProfile : Option CompanyProfile)
    (timestamp : ℕ) : List Block :=
  let marginTop : ℚ := 8
  let marginBottom : ℚ := 8
  let marginX : ℚ := 10
  let gapBetweenSections : ℚ := 10
  let maskStartX := if enableLShape then maskLeftWidth else 0
  let maskStartY := canvasHeight - maskBottomHeight
  let totalAvailableWidth :=
    (if enableLShape then canvasWidth - maskLeftWidth else canvasWidth) - marginX * 2
  let availableHeight := maskBottomHeight - marginTop - marginBottom
  let companyNameFontSize := companyNameFontSizeOf maskBottomHeight
  let smallFontSize := smallFontSizeOf maskBottomHeight
  let hasLogo := truthy (companyProfile.bind CompanyProfile.logo_url)
  let hasQr := truthy (companyProfile.bind CompanyProfile.line_qr_url)
  let imageSize := jsMin availableHeight (availableHeight * (9 / 10))
  let logoWidth := if hasLogo then imageSize else 0
  let qrWidth := if hasQr then imageSize else 0
  let logoBlocks : List Block :=
    if hasLogo then
      [Block.image (ImageBlock.mk ("block-logo-" ++ toString timestamp) ImageField.logo
        (maskStartX + marginX)
        (maskStartY + marginTop + (availableHeight - imageSize) / 2)
        imageSize imageSize)]
    else []
  let qrBlocks : List Block :=
    if hasQr then
      [Block.image (ImageBlock.mk ("block-line_qr-" ++ toString (timestamp + 1)) ImageField.line_qr
        (maskStartX + marginX + totalAvailableWidth - imageSize)
        (maskStartY + marginTop + (availableHeight - imageSize) / 2)
        imageSize imageSize)]
    else []
  let textStartX := maskStartX + marginX + (if hasLogo then logoWidth + gapBetweenSections else 0)
  let textAreaWidth := totalAvailableWidth
    - (if hasLogo then logoWidth + gapBetweenSections else 0)
    - (if hasQr then qrWidth + gapBetweenSections else 0)
  let columnWidth := textAreaWidth / 2
  let startY := maskStartY + marginTop
  let feeRowPresent := (companyProfile.bind CompanyProfile.fee_ratio_landlord).isSome
  let feeDistPresent := (companyProfile.bind CompanyProfile.fee_distribution_motoduke).isSome
  logoBlocks ++ qrBlocks
    ++ leftColumnBlocks timestamp textStartX columnWidth startY
        companyNameFontSize smallFontSize feeRowPresent feeDistPresent
    ++ rightColumnBlocks timestamp (textStartX + columnWidth) startY columnWidth smallFontSize

/-- The bottom band of the mask as the editor shows it (the `maskArea`
rectangle of `BlockEditor`, block-editor.tsx lines 132-138): anchored at the
bottom of the canvas, starting after the left band when the L shape is
enabled. -/
def editorBottomBand (canvasWidth canvasHeight maskBottomHeight maskLeftWidth : ℚ)
    (enableLShape : Bool) : Rect :=
  Rect.mk (if enableLShape then maskLeftWidth else 0)
    (canvasHeight - maskBottomHeight)
    (if enableLShape then canvasWidth - maskLeftWidth else canvasWidth)
    maskBottomHeight

/-- Two rectangles overlap when their interiors intersect. -/
abbrev rectsOverlap (a b : Rect) : Prop :=
  a.x < b.x + b.w ∧ b.x < a.x + a.w ∧ a.y < b.y + b.h ∧ b.y < a.y + a.h

/-- `a` lies inside `band`. -/
abbrev rectInside (a band : Rect) : Prop :=
  band.x ≤ a.x ∧ band.y ≤ a.y ∧ a.x + a.w ≤ band.x + band.w ∧ a.y + a.h ≤ band.y + band.h

/-- Relation between blocks: their rectangles do not overlap. -/
def noOverlapRel (a b : Block) : Prop := ¬ rectsOverlap a.rect b.rect

instance (a b : Block) : Decidable (noOverlapRel a b) :=
  inferInstanceAs (Decidable (¬ rectsOverlap a.rect b.rect))

/-- Every block of the list lies inside the given band. -/
def allInsideBand (l : List Block) (band : Rect) : Prop :=
  ∀ blk ∈ l, rectInside blk.rect band

instance (l : List Block) (band : Rect) : Decidable (allInsideBand l band) :=
  inferInstanceAs (Decidable (∀ blk ∈ l, rectInside blk.rect band))

/-! The export pipeline (`handleExport`, part_006 lines 266-604). -/

/-- A source page, as `handleExport` sees it after `copyPages`: raw
(unrotated) size from `getSize()` and the declared rotation from
`getRotation().angle`. -/
structure PageInfo where
  id : String
  pageNumber : ℕ
  rawWidth : ℚ
  rawHeight : ℚ
  rotation : ℤ
  deriving DecidableEq

/-- One draw call issued into the output page: an opaque white rectangle, a
placed image, or a glyph run; `rot` is the rotation (in degrees) passed to
the pdf-lib draw call (0 when the code passes no rotation). -/
inductive DrawOp
  | rect (r : Rect)
  | image (f : ImageField) (x y w h : ℚ) (rot : ℤ)
  | text (content : String) (x y size : ℚ) (weight : FontWeight) (rot : ℤ)
  deriving DecidableEq

/-- The rotation argument of a draw call. -/
def DrawOp.rotOf : DrawOp → ℤ
  | DrawOp.rect _ => 0
  | DrawOp.image _ _ _ _ _ r => r
  | DrawOp.text _ _ _ _ _ r => r

/-- Outcome of fetching and embedding one image URL: the fetch can fail, the
embed call on the fetched bytes can fail, or both succeed. -/
inductive EmbedOutcome
  | fetchFailed
  | embedFailed
  | ok
  deriving DecidableEq

/-- The `embedImage` helper (part_006 lines 231-263): it returns `null` when
the fetch fails, and it also returns `null` when every embed call on the
fetched bytes throws, because the surrounding `try`/`catch` swallows the
exception.  Only a successful fetch followed by a successful embed yields an
image. -/
def embedImage (outcome : String → EmbedOutcome) (url : String) : Option Unit :=
  match outcome url with
  | EmbedOutcome.ok => some ()
  | EmbedOutcome.fetchFailed => none
  | EmbedOutcome.embedFailed => none

/-- Cache entry for one optional profile URL: `handleExport` embeds the URL
up front when it is truthy and stores it in the cache only when `embedImage`
returned an image (part_006 lines 296-308). -/
def cacheEntry (outcome : String → EmbedOutcome) : Option String → List String
  | none => []
  | some u => if !u.isEmpty && (embedImage outcome u).isSome then [u] else []

/-- The image cache built before the page loop: at most the logo URL and the
LINE-QR URL. -/
def cachedUrls (outcome : String → EmbedOutcome) :
    Option CompanyProfile → List String
  | none => []
  | some p => cacheEntry outcome p.logo_url ++ cacheEntry outcome p.line_qr_url

/-- The white bottom-band rectangle drawn by `handleExport`
(part_006 lines 350-387): one of four explicit cases on the declared
rotation, any other value falling through to the `default` branch. -/
def bottomMaskRect (rotation : ℤ) (rawWidth rawHeight bottomMaskHeight : ℚ) : Rect :=
  if rotation = 90 then
    Rect.mk 0 0 bottomMaskHeight rawHeight
  else if rotation = 180 then
    Rect.mk 0 (rawHeight - bottomMaskHeight) rawWidth bottomMaskHeight
  else if rotation = 270 then
    Rect.mk (rawWidth - bottomMaskHeight) 0 bottomMaskHeight rawHeight
  else
    Rect.mk 0 0 rawWidth bottomMaskHeight

/-- The white left-band rectangle of the L shape (part_006 lines 389-427). -/
def leftMaskRect (rotation : ℤ) (rawWidth rawHeight bottomMaskHeight leftMaskWidth : ℚ) :
    Rect :=
  if rotation = 90 then
    Rect.mk 0 0 (rawWidth - bottomMaskHeight) leftMaskWidth
  else if rotation = 180 then
    Rect.mk (rawWidth - leftMaskWidth) 0 leftMaskWidth (rawHeight - bottomMaskHeight)
  else if rotation = 270 then
    Rect.mk bottomMaskHeight (rawHeight - leftMaskWidth) (rawWidth - bottomMaskHeight) leftMaskWidth
  else
    Rect.mk 0 bottomMaskHeight leftMaskWidth (rawHeight - bottomMaskHeight)

/-- The image draw call for one image block (part_006 lines 442-496): the
block rectangle is scaled by the page scale factor `sr`, transformed to PDF
space per rotation case, and for the rotated draw calls with rotation ±90
the width and height arguments are swapped. -/
def imageDrawOp (rotation : ℤ) (rawWidth rawHeight dispW dispH sr : ℚ)
    (b : ImageBlock) : DrawOp :=
  let drawWidth := b.width * sr
  let drawHeight := b.height * sr
  let blockX := b.x * sr
  let blockY := b.y * sr
  if rotation = 90 then
    DrawOp.image b.field blockY (rawHeight - blockX - drawWidth) drawHeight drawWidth (-90)
  else if rotation = 180 then
    DrawOp.image b.field (dispW - blockX - drawWidth) blockY drawWidth drawHeight 180
  else if rotation = 270 then
    DrawOp.image b.field (rawWidth - blockY - drawHeight) blockX drawHeight drawWidth 90
  else
    DrawOp.image b.field blockX (dispH - blockY - drawHeight) drawWidth drawHeight 0

/-- Label shown before a fee percentage (the `FEE_LABELS` table of
part_006 lines 35-40). -/
def feeLabel : TextField → String
  | TextField.fee_ratio_landlord => "貸主負担"
  | TextField.fee_ratio_tenant => "借主負担"
  | TextField.fee_distribution_motoduke => "元付配分"
  | TextField.fee_distribution_kyakuzuke => "客付配分"
  | _ => ""

/-- Whether a field name starts with `fee_`. -/
def isFeeField : TextField → Bool
  | TextField.fee_ratio_landlord => true
  | TextField.fee_ratio_tenant => true
  | TextField.fee_distribution_motoduke => true
  | TextField.fee_distribution_kyakuzuke => true
  | _ => false

/-- The nullable integer value of a fee field in the profile. -/
def feeValue (p : CompanyProfile) : TextField → Option ℤ
  | TextField.fee_ratio_landlord => p.fee_ratio_landlord
  | TextField.fee_ratio_tenant => p.fee_ratio_tenant
  | TextField.fee_distribution_motoduke => p.fee_distribution_motoduke
  | TextField.fee_distribution_kyakuzuke => p.fee_distribution_kyakuzuke
  | _ => none

/-- The string value of a non-fee field in the profile; nullable columns
yield the empty string, which the caller's falsiness check then skips,
exactly like the `null` the code reads. -/
def stringValue (p : CompanyProfile) : TextField → String
  | TextField.company_name => p.company_name
  | TextField.address => p.address
  | TextField.phone => p.phone
  | TextField.fax => p.fax.getD ""
  | TextField.email => p.email
  | TextField.contact_person => p.contact_person.getD ""
  | TextField.license_number => p.license_number
  | _ => ""

/-- Content resolution for a text block (part_006 lines 505-514): a fee
field with a null value skips the block, otherwise the content is
`label ++ ": " ++ value ++ "%"`; a non-fee field with falsy content skips
the block. -/
def resolveContent (p : CompanyProfile) (f : TextField) : Option String :=
  if isFeeField f then
    match feeValue p f with
    | none => none
    | some v => some (feeLabel f ++ ": " ++ toString v ++ "%")
  else
    let content := stringValue p f
    if content.isEmpty then none else some content

/-- The text draw call for one text block with resolved content
(part_006 lines 516-572): alignment is applied to the scaled x, the baseline
sits 2 display pixels above the block bottom, and the anchor is transformed
to PDF space per rotation case with the glyph-run rotation of that case. -/
def textDrawOp (widthOf : FontWeight → String → ℚ → ℚ) (rotation : ℤ)
    (rawWidth rawHeight dispW dispH sr : ℚ) (b : TextBlock) (content : String) :
    DrawOp :=
  let fontSize := b.fontSize * sr
  let textWidthPx := widthOf b.fontWeight content fontSize
  let blockWidthPdf := b.width * sr
  let blockX :=
    if b.textAlign = TextAlign.center then b.x * sr + (blockWidthPdf - textWidthPx) / 2
    else if b.textAlign = TextAlign.right then b.x * sr + (blockWidthPdf - textWidthPx)
    else b.x * sr
  let baselineY := (b.y + b.height - 2) * sr
  if rotation = 90 then
    DrawOp.text content baselineY (rawHeight - blockX - textWidthPx) fontSize b.fontWeight (-90)
  else if rotation = 180 then
    DrawOp.text content (dispW - blockX - textWidthPx) baselineY fontSize b.fontWeight 180
  else if rotation = 270 then
    DrawOp.text content (rawWidth - baselineY) blockX fontSize b.fontWeight (-90)
  else
    DrawOp.text content blockX (dispH - baselineY) fontSize b.fontWeight 0

/-- Decision for one image block (part_006 lines 430-440): skipped when the
profile is null, the referenced URL is falsy, or the URL is not in the image
cache; otherwise its draw call is emitted. -/
def imageOpOf (profile : Option CompanyProfile) (cache : List String) (rotation : ℤ)
    (rawWidth rawHeight dispW dispH sr : ℚ) (ib : ImageBlock) : Option DrawOp :=
  match profile with
  | none => none
  | some p =>
    match (if ib.field = ImageField.logo then p.logo_url else p.line_qr_url) with
    | none => none
    | some url =>
      if url.isEmpty then none
      else if url ∈ cache then
        some (imageDrawOp rotation rawWidth rawHeight dispW dispH sr ib)
      else none

/-- Decision for one text block (part_006 lines 500-514): skipped when the
profile is null or the content resolves empty. -/
def textOpOf (widthOf : FontWeight → String → ℚ → ℚ)
    (profile : Option CompanyProfile) (rotation : ℤ)
    (rawWidth rawHeight dispW dispH sr : ℚ) (tb : TextBlock) : Option DrawOp :=
  match profile with
  | none => none
  | some p =>
    match resolveContent p tb.field with
    | none => none
    | some content => some (textDrawOp widthOf rotation rawWidth rawHeight dispW dispH sr tb content)

/-- All draw calls issued into one copied page (part_006 lines 336-573), in
order: the bottom mask, the optional left mask, the image blocks, the text
blocks.  `dims` is the stored display size of the page in the editor
(`pageDimensions[page.id]`), defaulting to the page's own display size;
the scale factor is `displayWidth / dims.width`. -/
def pageDrawOpsCore (widthOf : FontWeight → String → ℚ → ℚ)
    (profile : Option CompanyProfile) (cache : List String) (rotation : ℤ)
    (rawWidth rawHeight : ℚ) (mask : MaskSettings) (dims : Option (ℚ × ℚ))
    (pageBlocks : List Block) : List DrawOp :=
  let dispW := if rotation = 90 ∨ rotation = 270 then rawHeight else rawWidth
  let dispH := if rotation = 90 ∨ rotation = 270 then rawWidth else rawHeight
  let dimsW := (dims.getD (dispW, dispH)).1
  let sr := dispW / dimsW
  let leftOps : List DrawOp :=
    if mask.enableLShape ∧ 0 < mask.leftWidth then
      [DrawOp.rect (leftMaskRect rotation rawWidth rawHeight mask.bottomHeight mask.leftWidth)]
    else []
  let imageOps : List DrawOp := pageBlocks.filterMap fun blk =>
    match blk with
    | Block.image ib => imageOpOf profile cache rotation rawWidth rawHeight dispW dispH sr ib
    | Block.text _ => none
  let textOps : List DrawOp := pageBlocks.filterMap fun blk =>
    match blk with
    | Block.text tb => textOpOf widthOf profile rotation rawWidth rawHeight dispW dispH sr tb
    | Block.image _ => none
  DrawOp.rect (bottomMaskRect rotation rawWidth rawHeight mask.bottomHeight)
    :: (leftOps ++ imageOps ++ textOps)

/-- One page of the merged output document: the copied source page and the
draw calls made on top of it. -/
structure OutputPage where
  src : PageInfo
  ops : List DrawOp
  deriving DecidableEq

/-- Processing of one page of the loop (part_006 lines 311-323): a page
whose id has no mask settings is skipped with `continue` before it is copied
into the merged document; otherwise the page is copied and drawn on. -/
def exportPageOf (widthOf : FontWeight → String → ℚ → ℚ)
    (outcome : String → EmbedOutcome) (profile : Option CompanyProfile)
    (maskOf : String → Option MaskSettings) (blocksOf : String → List Block)
    (dimsOf : String → Option (ℚ × ℚ)) (page : PageInfo) : Option OutputPage :=
  match maskOf page.id with
  | none => none
  | some mask =>
    some (OutputPage.mk page
      (pageDrawOpsCore widthOf profile (cachedUrls outcome profile) page.rotation
        page.rawWidth page.rawHeight mask (dimsOf page.id) (blocksOf page.id)))

/-- The whole export loop: the pages of the merged output document, in input
order.  The loop body never throws in the model, so the export always
completes and returns this list. -/
def exportPages (widthOf : FontWeight → String → ℚ → ℚ)
    (outcome : String → EmbedOutcome) (profile : Option CompanyProfile)
    (maskOf : String → Option MaskSettings) (blocksOf : String → List Block)
    (dimsOf : String → Option (ℚ × ℚ)) (pages : List PageInfo) : List OutputPage :=
  pages.filterMap (exportPageOf widthOf outcome profile maskOf blocksOf dimsOf)

/-- A rectangle has non-negative width and height. -/
abbrev nonnegRect (r : Rect) : Prop := 0 ≤ r.w ∧ 0 ≤ r.h

/-- Whether a block is one of the two fee-ratio text blocks
(landlord or tenant). -/
def mentionsFeePair : Block → Bool
  | Block.text tb =>
      tb.field == TextField.fee_ratio_landlord || tb.field == TextField.fee_ratio_tenant
  | Block.image _ => false

/-! Concrete fixtures used to evaluate the model at specific inputs. -/

/-- A font-width measure that maps every glyph run to width zero. -/
def zeroWidthOf : FontWeight → String → ℚ → ℚ := fun _ _ _ => 0

/-- Every image URL fetches and embeds successfully. -/
def ocAllOk : String → EmbedOutcome := fun _ => EmbedOutcome.ok

/-- Every image URL fetches successfully but the embed call fails. -/
def ocEmbedFail : String → EmbedOutcome := fun _ => EmbedOutcome.embedFailed

/-- A fully populated company profile: logo, QR and all four fee values
present. -/
def testProfileFull : CompanyProfile :=
  CompanyProfile.mk "株式会社テスト" "東京都" "03-0000-0000" none "a@b.c" none
    "東京都知事(1)第00000号" (some "logo.png") (some "qr.png")
    (some 50) (some 50) (some 50) (some 50)

/-- Same profile but with a null landlord fee ratio and a non-null tenant
fee ratio. -/
def profLandlordNone : CompanyProfile :=
  CompanyProfile.mk "株式会社テスト" "東京都" "03-0000-0000" none "a@b.c" none
    "東京都知事(1)第00000号" (some "logo.png") (some "qr.png")
    none (some 70) (some 50) (some 50)

/-- An unrotated 600 x 800 source page. -/
def page600 : PageInfo := PageInfo.mk "p1" 1 600 800 0

/-- A 600 x 800 source page with the unsupported declared rotation 45. -/
def page45 : PageInfo := PageInfo.mk "p45" 1 600 800 45

/-- A second page, whose id has no mask-settings entry in `maskOnlyP1`. -/
def pageNoMask : PageInfo := PageInfo.mk "p2" 1 500 500 0

/-- Default mask settings: bottom band of height 100, no L shape. -/
def mask100 : MaskSettings := MaskSettings.mk 100 0 false

/-- Mask settings present for every page id. -/
def maskAllOf : String → Option MaskSettings := fun _ => some mask100

/-- Mask settings present only for the page id `p1`. -/
def maskOnlyP1 : String → Option MaskSettings :=
  fun s => if s = "p1" then some mask100 else none

/-- No page has stored blocks. -/
def noBlocksOf : String → List Block := fun _ => []

/-- No page has a stored display size. -/
def noDimsOf : String → Option (ℚ × ℚ) := fun _ => none

/-- Every page has the stored display size 300 x 400, half the natural
600 x 800, so the export's scale factor is 2. -/
def dims300Of : String → Option (ℚ × ℚ) := fun _ => some (300, 400)

/-- A logo image block inside the bottom band of `page600`. -/
def logoBlk : ImageBlock := ImageBlock.mk "b1" ImageField.logo 10 710 80 80

/-- Every page carries exactly the logo image block. -/
def logoBlocksOf : String → List Block := fun _ => [Block.image logoBlk]

/-- A left-aligned company-name text block used as a concrete witness
input. -/
def tb0 : TextBlock :=
  TextBlock.mk "t0" TextField.company_name 10 710 200 22 16 FontWeight.bold TextAlign.left

/-! Helper lemmas. -/

/-- A rotation that is none of 90, 180 and 270 reaches the `default`
branch of the bottom-mask switch, i.e. behaves exactly like rotation 0. -/
theorem bottomMaskRect_default (r : ℤ) (h90 : r ≠ 90) (h180 : r ≠ 180) (h270 : r ≠ 270)
    (rawW rawH bh : ℚ) : bottomMaskRect r rawW rawH bh = bottomMaskRect 0 rawW rawH bh := by
  unfold bottomMaskRect
  rw [if_neg h90, if_neg h180, if_neg h270]
  norm_num

/-- Same for the left-mask switch. -/
theorem leftMaskRect_default (r : ℤ) (h90 : r ≠ 90) (h180 : r ≠ 180) (h270 : r ≠ 270)
    (rawW rawH bh lw : ℚ) : leftMaskRect r rawW rawH bh lw = leftMaskRect 0 rawW rawH bh lw := by
  unfold leftMaskRect
  rw [if_neg h90, if_neg h180, if_neg h270]
  norm_num

/-- Same for the image-block transform switch. -/
theorem imageDrawOp_default (r : ℤ) (h90 : r ≠ 90) (h180 : r ≠ 180) (h270 : r ≠ 270)
    (rawW rawH dW dH sr : ℚ) (b : ImageBlock) :
    imageDrawOp r rawW rawH dW dH sr b = imageDrawOp 0 rawW rawH dW dH sr b := by
  unfold imageDrawOp
  rw [if_neg h90, if_neg h180, if_neg h270]
  norm_num

/-- Same for the text-anchor transform switch. -/
theorem textDrawOp_default (r : ℤ) (h90 : r ≠ 90) (h180 : r ≠ 180) (h270 : r ≠ 270)
    (widthOf : FontWeight → String → ℚ → ℚ) (rawW rawH dW dH sr : ℚ)
    (b : TextBlock) (content : String) :
    textDrawOp widthOf r rawW rawH dW dH sr b content
      = textDrawOp widthOf 0 rawW rawH dW dH sr b content := by
  unfold textDrawOp
  rw [if_neg h90, if_neg h180, if_neg h270]
  norm_num

/-- Same for the per-image-block decision. -/
theorem imageOpOf_default (r : ℤ) (h90 : r ≠ 90) (h180 : r ≠ 180) (h270 : r ≠ 270)
    (profile : Option CompanyProfile) (cache : List String)
    (rawW rawH dW dH sr : ℚ) (ib : ImageBlock) :
    imageOpOf profile cache r rawW rawH dW dH sr ib
      = imageOpOf profile cache 0 rawW rawH dW dH sr ib := by
  unfold imageOpOf
  cases profile with
  | none => rfl
  | some p =>
    cases hu : (if ib.field = ImageField.logo then p.logo_url else p.line_qr_url) with
    | none => simp [hu]
    | some url => simp [hu, imageDrawOp_default r h90 h180 h270]

/-- Same for the per-text-block decision. -/
theorem textOpOf_default (r : ℤ) (h90 : r ≠ 90) (h180 : r ≠ 180) (h270 : r ≠ 270)
    (widthOf : FontWeight → String → ℚ → ℚ) (profile : Option CompanyProfile)
    (rawW rawH dW dH sr : ℚ) (tb : TextBlock) :
    textOpOf widthOf profile r rawW rawH dW dH sr tb
      = textOpOf widthOf profile 0 rawW rawH dW dH sr tb := by
  unfold textOpOf
  cases profile with
  | none => rfl
  | some p =>
    cases hc : resolveContent p tb.field with
    | none => simp [hc]
    | some content => simp [hc, textDrawOp_default r h90 h180 h270]

/-- A URL found in a cache entry was successfully embedded. -/
theorem mem_cacheEntry (outcome : String → EmbedOutcome) (u? : Option String) (url : String)
    (hmem : url ∈ cacheEntry outcome u?) : (embedImage outcome url).isSome := by
  cases u? with
  | none => simp [cacheEntry] at hmem
  | some u =>
    simp only [cacheEntry] at hmem
    by_cases hc : (!u.isEmpty && (embedImage outcome u).isSome) = true
    · rw [if_pos hc] at hmem
      have hurl : url = u := by simpa using hmem
      subst hurl
      simp [Bool.and_eq_true] at hc
      exact hc.2
    · rw [if_neg hc] at hmem
      simp at hmem

/-- A URL whose outcome is not a successful embed never enters the image
cache. -/
theorem not_mem_cachedUrls (outcome : String → EmbedOutcome)
    (profile : Option CompanyProfile) (url : String)
    (h : outcome url ≠ EmbedOutcome.ok) : url ∉ cachedUrls outcome profile := by
  intro hmem
  cases profile with
  | none => simp [cachedUrls] at hmem
  | some p =>
    unfold cachedUrls at hmem
    have hs : (embedImage outcome url).isSome := by
      rcases List.mem_append.mp hmem with hm | hm
      · exact mem_cacheEntry outcome _ url hm
      · exact mem_cacheEntry outcome _ url hm
    cases hoc : outcome url with
    | ok => exact h hoc
    | fetchFailed => simp [embedImage, hoc] at hs
    | embedFailed => simp [embedImage, hoc] at hs

/-- The source pages of the merged output are exactly the input pages whose
id has mask settings, in input order. -/
theorem exportPages_map_src (widthOf : FontWeight → String → ℚ → ℚ)
    (outcome : String → EmbedOutcome) (profile : Option CompanyProfile)
    (maskOf : String → Option MaskSettings) (blocksOf : String → List Block)
    (dimsOf : String → Option (ℚ × ℚ)) (pages : List PageInfo) :
    (exportPages widthOf outcome profile maskOf blocksOf dimsOf pages).map OutputPage.src
      = pages.filter fun pg => (maskOf pg.id).isSome := by
  induction pages with
  | nil => rfl
  | cons page rest ih =>
    unfold exportPages at ih ⊢
    rw [List.filterMap_cons, List.filter_cons]
    cases h : maskOf page.id with
    | none => simp [exportPageOf, h, ih]
    | some m => simp [exportPageOf, h, ih]

/-! Claim theorems. -/

/-- C1: the export draws the bottom mask first on every page, and for the
four supported rotations the drawn PDF-space rectangle is `{0,0,rawW,h}`
for rotation 0, `{0,0,h,rawH}` for 90, `{0,rawH-h,rawW,h}` for 180 and
`{rawW-h,0,h,rawH}` for 270, where `h` is the band height of the page's
mask settings. -/
theorem c1_bottom_mask (widthOf : FontWeight → String → ℚ → ℚ)
    (profile : Option CompanyProfile) (cache : List String) (r : ℤ)
    (rawW rawH : ℚ) (mask : MaskSettings) (dims : Option (ℚ × ℚ))
    (blks : List Block) :
    (pageDrawOpsCore widthOf profile cache r rawW rawH mask dims blks).head?
      = some (DrawOp.rect (bottomMaskRect r rawW rawH mask.bottomHeight)) ∧
    bottomMaskRect 0 rawW rawH mask.bottomHeight
      = Rect.mk 0 0 rawW mask.bottomHeight ∧
    bottomMaskRect 90 rawW rawH mask.bottomHeight
      = Rect.mk 0 0 mask.bottomHeight rawH ∧
    bottomMaskRect 180 rawW rawH mask.bottomHeight
      = Rect.mk 0 (rawH - mask.bottomHeight) rawW mask.bottomHeight ∧
    bottomMaskRect 270 rawW rawH mask.bottomHeight
      = Rect.mk (rawW - mask.bottomHeight) 0 mask.bottomHeight rawH := by
  refine ⟨rfl, ?_, ?_, ?_, ?_⟩ <;> norm_num [bottomMaskRect]

/-- C2 (counterexample): a page whose declared rotation is 45 is not
rejected: the export completes and draws the page, with the bottom mask of
the rotation-0 branch, so the unsupported rotation is silently treated as
rotation 0 instead of signalling a failure. -/
theorem c2_counterexample :
    exportPages zeroWidthOf ocAllOk none maskAllOf noBlocksOf noDimsOf [page45]
      = [OutputPage.mk page45 [DrawOp.rect (Rect.mk 0 0 600 100)]] := rfl

/-- C2 (amended): the export signals no failure for a rotation outside
{0, 90, 180, 270}; every rotation other than 90, 180 and 270 falls through
to the `default` switch branches and the page is drawn exactly as a
rotation-0 page. -/
theorem c2_unsupported_as_zero (widthOf : FontWeight → String → ℚ → ℚ)
    (profile : Option CompanyProfile) (cache : List String) (r : ℤ)
    (rawW rawH : ℚ) (mask : MaskSettings) (dims : Option (ℚ × ℚ))
    (blks : List Block) (h90 : r ≠ 90) (h180 : r ≠ 180) (h270 : r ≠ 270) :
    pageDrawOpsCore widthOf profile cache r rawW rawH mask dims blks
      = pageDrawOpsCore widthOf profile cache 0 rawW rawH mask dims blks := by
  have hor : ¬ (r = 90 ∨ r = 270) := fun hc => hc.elim h90 h270
  have hor0 : ¬ ((0 : ℤ) = 90 ∨ (0 : ℤ) = 270) := by decide
  unfold pageDrawOpsCore
  simp only [if_neg hor, if_neg hor0,
    bottomMaskRect_default r h90 h180 h270, leftMaskRect_default r h90 h180 h270,
    imageOpOf_default r h90 h180 h270, textOpOf_default r h90 h180 h270]

/-- C2 (witness): the amended statement applied at declared rotation 45. -/
theorem c2_witness :
    (45 : ℤ) ≠ 90 ∧
    pageDrawOpsCore zeroWidthOf none [] 45 600 800 mask100 none []
      = pageDrawOpsCore zeroWidthOf none [] 0 600 800 mask100 none [] :=
  ⟨by decide, c2_unsupported_as_zero zeroWidthOf none [] 45 600 800 mask100 none []
    (by decide) (by decide) (by decide)⟩

/-- C4 (counterexample): nothing is clamped: a `bottomHeight` of 900 on a
600 x 800 rotation-0 page is drawn as a 900-high band, and with the L shape
enabled the left band is produced with the negative height
`rawHeight - bottomHeight = -100`. -/
theorem c4_counterexample :
    bottomMaskRect 0 600 800 900 = Rect.mk 0 0 600 900 ∧
    leftMaskRect 0 600 800 900 10 = Rect.mk 0 900 10 (-100) ∧
    (leftMaskRect 0 600 800 900 10).h < 0 := by
  norm_num [bottomMaskRect, leftMaskRect]

/-- C4 (amended): the export applies no clamping, but whenever the mask
settings satisfy the documented invariant — non-negative sizes and
`bottomHeight` at most the display height of the page — neither the bottom
band nor the left band has negative width or height, for every declared
rotation. -/
theorem c4_no_negative_mask (r : ℤ) (rawW rawH bh lw : ℚ)
    (hW : 0 ≤ rawW) (hH : 0 ≤ rawH) (hb : 0 ≤ bh) (hl : 0 ≤ lw)
    (hbd : bh ≤ (if r = 90 ∨ r = 270 then rawW else rawH)) :
    nonnegRect (bottomMaskRect r rawW rawH bh) ∧
    nonnegRect (leftMaskRect r rawW rawH bh lw) := by
  unfold bottomMaskRect leftMaskRect
  by_cases h90 : r = 90
  · rw [if_pos (Or.inl h90)] at hbd
    simp only [if_pos h90]
    exact ⟨⟨hb, hH⟩, by constructor <;> simp <;> linarith⟩
  · by_cases h180 : r = 180
    · have hor : ¬ (r = 90 ∨ r = 270) := by
        rintro (hc | hc)
        · exact h90 hc
        · rw [h180] at hc; exact absurd hc (by decide)
      rw [if_neg hor] at hbd
      simp only [if_neg h90, if_pos h180]
      exact ⟨⟨hW, hb⟩, ⟨hl, by simp; linarith⟩⟩
    · by_cases h270 : r = 270
      · rw [if_pos (Or.inr h270)] at hbd
        simp only [if_neg h90, if_neg h180, if_pos h270]
        exact ⟨⟨hb, hH⟩, ⟨by simp; linarith, hl⟩⟩
      · have hor : ¬ (r = 90 ∨ r = 270) := fun hc => hc.elim h90 h270
        rw [if_neg hor] at hbd
        simp only [if_neg h90, if_neg h180, if_neg h270]
        exact ⟨⟨hW, hb⟩, ⟨hl, by simp; linarith⟩⟩

/-- C4 (witness): the amended statement applied on a 600 x 800 rotation-0
page with bottom height 100 and left width 50. -/
theorem c4_witness :
    (100 : ℚ) ≤ 800 ∧
    nonnegRect (bottomMaskRect 0 600 800 100) ∧
    nonnegRect (leftMaskRect 0 600 800 100 50) :=
  ⟨by norm_num,
   c4_no_negative_mask 0 600 800 100 50 (by norm_num) (by norm_num) (by norm_num)
     (by norm_num) (by decide)⟩

/-- C5 (counterexample): on a 600 x 800 rotation-0 page whose stored display
width is 300 (scale factor 2), the drawn bottom band is 100 thick — the raw
`bottomHeight`, not `bottomHeight * scaleRatio = 200`. -/
theorem c5_counterexample :
    exportPages zeroWidthOf ocAllOk none maskAllOf noBlocksOf dims300Of [page600]
      = [OutputPage.mk page600 [DrawOp.rect (Rect.mk 0 0 600 100)]] ∧
    mask100.bottomHeight * (600 / 300) ≠ 100 := ⟨rfl, by norm_num [mask100]⟩

/-- C5 (amended): the mask rectangles are computed from the unscaled mask
settings — the drawn bottom band is `bottomMaskRect` of `mask.bottomHeight`
itself, independent of the stored display size — while block rectangles are
scaled by the scale factor, as the rotation-0 image draw call shows. -/
theorem c5_mask_unscaled (widthOf : FontWeight → String → ℚ → ℚ)
    (profile : Option CompanyProfile) (cache : List String) (r : ℤ)
    (rawW rawH : ℚ) (mask : MaskSettings) (dims : Option (ℚ × ℚ))
    (blks : List Block) (dW dH sr : ℚ) (ib : ImageBlock) :
    (pageDrawOpsCore widthOf profile cache r rawW rawH mask dims blks).head?
      = some (DrawOp.rect (bottomMaskRect r rawW rawH mask.bottomHeight)) ∧
    imageDrawOp 0 rawW rawH dW dH sr ib
      = DrawOp.image ib.field (ib.x * sr) (dH - ib.y * sr - ib.height * sr)
          (ib.width * sr) (ib.height * sr) 0 := by
  refine ⟨rfl, ?_⟩
  norm_num [imageDrawOp]

/-- C6: for a text block drawn on a rotation-0 page, the drawn x is the
scaled block x for left alignment, plus half the leftover width for center,
plus the whole leftover width for right — the text width measured by the
font at the scaled size — and the drawn y is the display height minus the
baseline `(y + height - 2) * scale`. -/
theorem c6_text_anchor (widthOf : FontWeight → String → ℚ → ℚ)
    (rawW rawH dW dH sr : ℚ) (b : TextBlock) (content : String) :
    (b.textAlign = TextAlign.left →
      textDrawOp widthOf 0 rawW rawH dW dH sr b content
        = DrawOp.text content (b.x * sr) (dH - (b.y + b.height - 2) * sr)
            (b.fontSize * sr) b.fontWeight 0) ∧
    (b.textAlign = TextAlign.center →
      textDrawOp widthOf 0 rawW rawH dW dH sr b content
        = DrawOp.text content
            (b.x * sr + (b.width * sr - widthOf b.fontWeight content (b.fontSize * sr)) / 2)
            (dH - (b.y + b.height - 2) * sr) (b.fontSize * sr) b.fontWeight 0) ∧
    (b.textAlign = TextAlign.right →
      textDrawOp widthOf 0 rawW rawH dW dH sr b content
        = DrawOp.text content
            (b.x * sr + (b.width * sr - widthOf b.fontWeight content (b.fontSize * sr)))
            (dH - (b.y + b.height - 2) * sr) (b.fontSize * sr) b.fontWeight 0) := by
  refine ⟨?_, ?_, ?_⟩ <;> intro ha <;> simp +decide [textDrawOp, ha]

/-- C6 (witness): the left-alignment case applied to a concrete block. -/
theorem c6_witness :
    tb0.textAlign = TextAlign.left ∧
    textDrawOp zeroWidthOf 0 600 800 600 800 1 tb0 "X"
      = DrawOp.text "X" (tb0.x * 1) (800 - (tb0.y + tb0.height - 2) * 1)
          (tb0.fontSize * 1) tb0.fontWeight 0 :=
  ⟨rfl, (c6_text_anchor zeroWidthOf 600 800 600 800 1 tb0 "X").1 rfl⟩

/-- C7: the glyph-run rotation passed to the text draw call is 0, -90, 180
and -90 degrees for page rotations 0, 90, 180 and 270 respectively — the
90 and 270 pages both draw text rotated -90. -/
theorem c7_text_upright (widthOf : FontWeight → String → ℚ → ℚ)
    (rawW rawH dW dH sr : ℚ) (b : TextBlock) (content : String) :
    (textDrawOp widthOf 0 rawW rawH dW dH sr b content).rotOf = 0 ∧
    (textDrawOp widthOf 90 rawW rawH dW dH sr b content).rotOf = -90 ∧
    (textDrawOp widthOf 180 rawW rawH dW dH sr b content).rotOf = 180 ∧
    (textDrawOp widthOf 270 rawW rawH dW dH sr b content).rotOf = -90 := by
  refine ⟨?_, ?_, ?_, ?_⟩ <;> norm_num [textDrawOp, DrawOp.rotOf]

/-- C9 (counterexample): when the logo URL fetches but its embed call fails,
the export does not fail: it completes and produces the page, with the logo
block skipped — no draw call for it — exactly like a missing image. -/
theorem c9_counterexample :
    embedImage ocEmbedFail "logo.png" = none ∧
    exportPages zeroWidthOf ocEmbedFail (some testProfileFull) maskAllOf
        logoBlocksOf noDimsOf [page600]
      = [OutputPage.mk page600 [DrawOp.rect (Rect.mk 0 0 600 100)]] := ⟨rfl, rfl⟩

/-- C9 (amended): an embed-call failure on a successfully fetched image is
handled exactly like a fetch failure: `embedImage` returns null, the URL is
not cached, every image block referencing that URL is skipped without a
draw call, and the export completes with the same page count as a
fully successful embed. -/
theorem c9_embed_failure_nonfatal (outcome : String → EmbedOutcome) (url : String)
    (p : CompanyProfile) (widthOf : FontWeight → String → ℚ → ℚ)
    (maskOf : String → Option MaskSettings) (blocksOf : String → List Block)
    (dimsOf : String → Option (ℚ × ℚ)) (pages : List PageInfo)
    (ib : ImageBlock) (r : ℤ) (rawW rawH dW dH sr : ℚ)
    (he : outcome url = EmbedOutcome.embedFailed)
    (hb : (if ib.field = ImageField.logo then p.logo_url else p.line_qr_url) = some url) :
    embedImage outcome url = none ∧
    url ∉ cachedUrls outcome (some p) ∧
    imageOpOf (some p) (cachedUrls outcome (some p)) r rawW rawH dW dH sr ib = none ∧
    (exportPages widthOf outcome (some p) maskOf blocksOf dimsOf pages).length
      = (exportPages widthOf ocAllOk (some p) maskOf blocksOf dimsOf pages).length := by
  have hnotok : outcome url ≠ EmbedOutcome.ok := by rw [he]; decide
  have hnm : url ∉ cachedUrls outcome (some p) := not_mem_cachedUrls outcome (some p) url hnotok
  refine ⟨by simp [embedImage, he], hnm, ?_, ?_⟩
  · simp only [imageOpOf, hb]
    by_cases hemp : url.isEmpty
    · rw [if_pos hemp]
    · rw [if_neg hemp, if_neg hnm]
  · have h1 := exportPages_map_src widthOf outcome (some p) maskOf blocksOf dimsOf pages
    have h2 := exportPages_map_src widthOf ocAllOk (some p) maskOf blocksOf dimsOf pages
    calc (exportPages widthOf outcome (some p) maskOf blocksOf dimsOf pages).length
        = ((exportPages widthOf outcome (some p) maskOf blocksOf dimsOf pages).map
            OutputPage.src).length := (List.length_map _ _).symm
      _ = (pages.filter fun pg => (maskOf pg.id).isSome).length := by rw [h1]
      _ = ((exportPages widthOf ocAllOk (some p) maskOf blocksOf dimsOf pages).map
            OutputPage.src).length := by rw [h2]
      _ = (exportPages widthOf ocAllOk (some p) maskOf blocksOf dimsOf pages).length :=
          List.length_map _ _

/-- C9 (witness): the amended statement applied to the concrete failing
logo embed. -/
theorem c9_witness :
    ocEmbedFail "logo.png" = EmbedOutcome.embedFailed ∧
    embedImage ocEmbedFail "logo.png" = none ∧
    "logo.png" ∉ cachedUrls ocEmbedFail (some testProfileFull) ∧
    imageOpOf (some testProfileFull) (cachedUrls ocEmbedFail (some testProfileFull))
        0 600 800 600 800 1 logoBlk = none ∧
    (exportPages zeroWidthOf ocEmbedFail (some testProfileFull) maskAllOf
        logoBlocksOf noDimsOf [page600]).length
      = (exportPages zeroWidthOf ocAllOk (some testProfileFull) maskAllOf
          logoBlocksOf noDimsOf [page600]).length :=
  ⟨rfl, c9_embed_failure_nonfatal ocEmbedFail "logo.png" testProfileFull zeroWidthOf
    maskAllOf logoBlocksOf noDimsOf [page600] logoBlk 0 600 800 600 800 1 rfl rfl⟩

/-- C10: a page whose id has no mask-settings entry is skipped before it is
copied: the output's source pages are exactly the input pages that have
mask settings, in order, and in the concrete two-page run below the second
page is absent from the output while the export still completes with the
first page, so the output count (1) is smaller than the input count (2). -/
theorem c10_no_mask_skipped (widthOf : FontWeight → String → ℚ → ℚ)
    (outcome : String → EmbedOutcome) (profile : Option CompanyProfile)
    (maskOf : String → Option MaskSettings) (blocksOf : String → List Block)
    (dimsOf : String → Option (ℚ × ℚ)) (pages : List PageInfo) :
    (exportPages widthOf outcome profile maskOf blocksOf dimsOf pages).map OutputPage.src
      = (pages.filter fun pg => (maskOf pg.id).isSome) ∧
    exportPages zeroWidthOf ocAllOk none maskOnlyP1 noBlocksOf noDimsOf [page600, pageNoMask]
      = [OutputPage.mk page600 [DrawOp.rect (Rect.mk 0 0 600 100)]] :=
  ⟨exportPages_map_src widthOf outcome profile maskOf blocksOf dimsOf pages, rfl⟩

/-- C8: when the profile's landlord fee ratio is null, the initial layout
contains neither the landlord nor the tenant fee-ratio text block — both are
gated by the single landlord check — for every canvas, mask and tenant
value. -/
theorem c8_fee_pair_gated (cw ch h lw : ℚ) (ls : Bool) (p : CompanyProfile) (ts : ℕ)
    (hnone : p.fee_ratio_landlord = none) :
    (createInitialBlocks cw ch h lw ls (some p) ts).filter mentionsFeePair = [] := by
  cases hL : truthy p.logo_url <;> cases hQ : truthy p.line_qr_url <;>
  cases hFD : p.fee_distribution_motoduke.isSome <;>
    simp +decide [createInitialBlocks, leftColumnBlocks, rightColumnBlocks,
      mentionsFeePair, Option.bind, hL, hQ, hFD, hnone, List.filter_append]

/-- C8 (witness): the gate applied to the concrete profile whose landlord
fee ratio is null while the tenant fee ratio is 70. -/
theorem c8_witness :
    profLandlordNone.fee_ratio_landlord = none ∧
    (createInitialBlocks 600 800 100 0 false (some profLandlordNone) 0).filter
        mentionsFeePair = [] :=
  ⟨rfl, c8_fee_pair_gated 600 800 100 0 false profLandlordNone 0 rfl⟩

/-! Layout geometry lemmas for the initial block generator. -/

/-- Blocks separated along the x axis, first left of second, do not
overlap. -/
theorem noOv_of_left (a b : Block) (hsep : a.rect.x + a.rect.w ≤ b.rect.x) : noOverlapRel a b :=
  fun hov => absurd hov.2.1 (not_lt.mpr hsep)

/-- Blocks separated along the x axis, second left of first, do not
overlap. -/
theorem noOv_of_right (a b : Block) (hsep : b.rect.x + b.rect.w ≤ a.rect.x) : noOverlapRel a b :=
  fun hov => absurd hov.1 (not_lt.mpr hsep)

/-- Blocks separated along the y axis, first above second, do not
overlap. -/
theorem noOv_of_above (a b : Block) (hsep : a.rect.y + a.rect.h ≤ b.rect.y) : noOverlapRel a b :=
  fun hov => absurd hov.2.2.2 (not_lt.mpr hsep)

/-- Blocks separated along the y axis, second above first, do not
overlap. -/
theorem noOv_of_below (a b : Block) (hsep : b.rect.y + b.rect.h ≤ a.rect.y) : noOverlapRel a b :=
  fun hov => absurd hov.2.2.1 (not_lt.mpr hsep)

/-- Rectangle of a text block. -/
theorem Block.rect_text (b : TextBlock) :
    (Block.text b).rect = Rect.mk b.x b.y b.width b.height := rfl

/-- Rectangle of an image block. -/
theorem Block.rect_image (b : ImageBlock) :
    (Block.image b).rect = Rect.mk b.x b.y b.width b.height := rfl

/-- With a band at least 100 high the font base scale is 1. -/
theorem baseScaleOf_ge100 (h : ℚ) (hh : 100 ≤ h) : baseScaleOf h = 1 := by
  unfold baseScaleOf jsMin
  rw [if_pos (by rw [le_div_iff₀ (by norm_num : (0:ℚ) < 100)]; linarith)]

/-- With a band at least 100 high the company-name font size is 16. -/
theorem companyNameFontSizeOf_ge100 (h : ℚ) (hh : 100 ≤ h) :
    companyNameFontSizeOf h = 16 := by
  unfold companyNameFontSizeOf
  rw [baseScaleOf_ge100 h hh]
  norm_num [jsMax, jsRound]

/-- With a band at least 100 high the small font size is 10. -/
theorem smallFontSizeOf_ge100 (h : ℚ) (hh : 100 ≤ h) : smallFontSizeOf h = 10 := by
  unfold smallFontSizeOf
  rw [baseScaleOf_ge100 h hh]
  norm_num [jsMax, jsRound]

/-- With a band at least 100 high the square image slot is nine tenths of
the available height. -/
theorem imageSize_ge100 (h : ℚ) (hh : 100 ≤ h) :
    jsMin (h - 8 - 8) ((h - 8 - 8) * (9 / 10)) = (h - 8 - 8) * (9 / 10) := by
  unfold jsMin
  rw [if_neg (by intro hle; linarith)]

/-- The left column generated with the fixed 16pt/10pt fonts: its blocks
are pairwise disjoint and lie in the box of width `colW - 5` and height 84
at its top-left corner, for every combination of the two fee flags. -/
theorem leftColumn_props (ts : ℕ) (tX colW y0 : ℚ) (fR fD : Bool) (hcol : 9 ≤ colW) :
    List.Pairwise noOverlapRel (leftColumnBlocks ts tX colW y0 16 10 fR fD) ∧
    ∀ blk ∈ leftColumnBlocks ts tX colW y0 16 10 fR fD,
      tX ≤ blk.rect.x ∧ blk.rect.x + blk.rect.w ≤ tX + (colW - 5) ∧
      y0 ≤ blk.rect.y ∧ blk.rect.y + blk.rect.h ≤ y0 + 84 := by
  cases fR <;> cases fD <;>
  · constructor
    · simp only [leftColumnBlocks]
      norm_num [List.pairwise_cons, List.forall_mem_cons]
      repeat' apply And.intro
      all_goals first
        | (apply noOv_of_above <;> dsimp only [Block.rect] <;> linarith)
        | (apply noOv_of_below <;> dsimp only [Block.rect] <;> linarith)
        | (apply noOv_of_left <;> dsimp only [Block.rect] <;> linarith)
        | (apply noOv_of_right <;> dsimp only [Block.rect] <;> linarith)
    · simp only [leftColumnBlocks]
      norm_num [List.forall_mem_cons]
      repeat' apply And.intro
      all_goals (dsimp only [Block.rect]; linarith)

/-- The right column generated with the fixed 10pt font: its blocks are
pairwise disjoint and lie in the box of width `colW - 5` and height 84 at
its top-left corner. -/
theorem rightColumn_props (ts : ℕ) (rX colW y0 : ℚ) :
    List.Pairwise noOverlapRel (rightColumnBlocks ts rX y0 colW 10) ∧
    ∀ blk ∈ rightColumnBlocks ts rX y0 colW 10,
      rX ≤ blk.rect.x ∧ blk.rect.x + blk.rect.w ≤ rX + (colW - 5) ∧
      y0 ≤ blk.rect.y ∧ blk.rect.y + blk.rect.h ≤ y0 + 84 := by
  constructor
  · simp only [rightColumnBlocks]
    norm_num [List.pairwise_cons, List.forall_mem_cons]
    repeat' apply And.intro
    all_goals (apply noOv_of_above; dsimp only [Block.rect]; linarith)
  · simp only [rightColumnBlocks]
    norm_num [List.forall_mem_cons]
    repeat' apply And.intro
    all_goals (dsimp only [Block.rect]; linarith)

/-- Concatenation of two x-separated disjoint block lists is disjoint. -/
theorem pairwise_sep_append (l1 l2 : List Block) (s : ℚ)
    (hb1 : ∀ blk ∈ l1, blk.rect.x + blk.rect.w ≤ s)
    (hb2 : ∀ blk ∈ l2, s ≤ blk.rect.x)
    (p1 : List.Pairwise noOverlapRel l1) (p2 : List.Pairwise noOverlapRel l2) :
    List.Pairwise noOverlapRel (l1 ++ l2) := by
  rw [List.pairwise_append]
  exact ⟨p1, p2, fun a ha b hb => noOv_of_left a b (le_trans (hb1 a ha) (hb2 b hb))⟩

/-- C3 (counterexample): on a 40-wide canvas with the default 50-high band
and a full profile, the generated logo and QR slots overlap and blocks leak
out of the band, so the generator guarantee fails for this canvas size. -/
theorem c3_counterexample :
    ¬ (List.Pairwise noOverlapRel (createInitialBlocks 40 200 50 0 false (some testProfileFull) 0) ∧
       allInsideBand (createInitialBlocks 40 200 50 0 false (some testProfileFull) 0)
         (editorBottomBand 40 200 50 0 false)) := by
  rintro ⟨hp, -⟩
  have hlogo : "logo.png".isEmpty = false := rfl
  have hqr : "qr.png".isEmpty = false := rfl
  norm_num [hlogo, hqr, createInitialBlocks, leftColumnBlocks, rightColumnBlocks, truthy,
    testProfileFull, baseScaleOf, companyNameFontSizeOf, smallFontSizeOf, jsMin, jsMax, jsRound,
    Option.bind, List.pairwise_cons, List.forall_mem_cons, Block.rect_text, Block.rect_image,
    noOverlapRel, rectsOverlap] at hp

/-- C3 (amended): for every canvas size, mask settings and profile whose
geometry leaves room for the layout — a band at least the default 100 high,
and a band width whose text area after the image slots is at least 18 —
the generated blocks are pairwise non-overlapping and all lie inside the
mask's bottom band, for every combination of present and absent logo, QR
and fee fields. -/
theorem c3_layout (cw ch h lw : ℚ) (ls : Bool) (p : Option CompanyProfile) (ts : ℕ)
    (hh : 100 ≤ h)
    (hT : 18 ≤ (if ls then cw - lw else cw) - 20
        - (if truthy (p.bind CompanyProfile.logo_url) then (h - 8 - 8) * (9 / 10) + 10 else 0)
        - (if truthy (p.bind CompanyProfile.line_qr_url) then (h - 8 - 8) * (9 / 10) + 10 else 0)) :
    List.Pairwise noOverlapRel (createInitialBlocks cw ch h lw ls p ts) ∧
    allInsideBand (createInitialBlocks cw ch h lw ls p ts) (editorBottomBand cw ch h lw ls) := by
  simp only [createInitialBlocks, editorBottomBand, allInsideBand,
    companyNameFontSizeOf_ge100 h hh, smallFontSizeOf_ge100 h hh, imageSize_ge100 h hh]
  cases hL : truthy (p.bind CompanyProfile.logo_url) <;>
  cases hQ : truthy (p.bind CompanyProfile.line_qr_url) <;>
    simp [hL, hQ] at hT ⊢
  case false.false =>
    set m := (if ls = true then lw else (0:ℚ)) with hm
    set bw := (if ls = true then cw - lw else cw) with hbw
    set colW := (bw - 10 * 2) / 2 with hcolW
    set tX := m + 10 with htX
    have hcol : (9:ℚ) ≤ colW := by rw [hcolW]; linarith
    obtain ⟨lcP, lcB⟩ := leftColumn_props ts tX colW (ch - h + 8)
      (p.bind CompanyProfile.fee_ratio_landlord).isSome
      (p.bind CompanyProfile.fee_distribution_motoduke).isSome hcol
    obtain ⟨rcP, rcB⟩ := rightColumn_props ts (tX + colW) colW (ch - h + 8)
    constructor
    · exact pairwise_sep_append _ _ (tX + (colW - 5))
        (fun blk hb => (lcB blk hb).2.1)
        (fun blk hb => by have := (rcB blk hb).1; linarith)
        lcP rcP
    · rintro blk (hmem | hmem)
      · have hb := lcB blk hmem
        refine ⟨?_, ?_, ?_, ?_⟩ <;> simp only [Block.rect_text, Block.rect_image] <;>
          linarith [hb.1, hb.2.1, hb.2.2.1, hb.2.2.2]
      · have hb := rcB blk hmem
        refine ⟨?_, ?_, ?_, ?_⟩ <;> simp only [Block.rect_text, Block.rect_image] <;>
          linarith [hb.1, hb.2.1, hb.2.2.1, hb.2.2.2]
  case false.true =>
    set m := (if ls = true then lw else (0:ℚ)) with hm
    set bw := (if ls = true then cw - lw else cw) with hbw
    set iS := (h - 8 - 8) * (9 / 10) with hiS
    set colW := (bw - 10 * 2 - (iS + 10)) / 2 with hcolW
    set tX := m + 10 with htX
    have hcol : (9:ℚ) ≤ colW := by rw [hcolW]; linarith
    obtain ⟨lcP, lcB⟩ := leftColumn_props ts tX colW (ch - h + 8)
      (p.bind CompanyProfile.fee_ratio_landlord).isSome
      (p.bind CompanyProfile.fee_distribution_motoduke).isSome hcol
    obtain ⟨rcP, rcB⟩ := rightColumn_props ts (tX + colW) colW (ch - h + 8)
    constructor
    · refine ⟨?_, ?_⟩
      · rintro a (hmem | hmem)
        · exact noOv_of_right _ _
            (by simp only [Block.rect_text, Block.rect_image]; linarith [(lcB a hmem).2.1])
        · exact noOv_of_right _ _
            (by simp only [Block.rect_text, Block.rect_image]; linarith [(rcB a hmem).2.1])
      · exact pairwise_sep_append _ _ (tX + (colW - 5))
          (fun blk hb => (lcB blk hb).2.1)
          (fun blk hb => by have := (rcB blk hb).1; linarith)
          lcP rcP
    · refine ⟨?_, ?_⟩
      · refine ⟨?_, ?_, ?_, ?_⟩ <;> simp only [Block.rect_text, Block.rect_image] <;> linarith
      · rintro a (hmem | hmem)
        · have hb := lcB a hmem
          refine ⟨?_, ?_, ?_, ?_⟩ <;> simp only [Block.rect_text, Block.rect_image] <;>
            linarith [hb.1, hb.2.1, hb.2.2.1, hb.2.2.2]
        · have hb := rcB a hmem
          refine ⟨?_, ?_, ?_, ?_⟩ <;> simp only [Block.rect_text, Block.rect_image] <;>
            linarith [hb.1, hb.2.1, hb.2.2.1, hb.2.2.2]
  case true.false =>
    set m := (if ls = true then lw else (0:ℚ)) with hm
    set bw := (if ls = true then cw - lw else cw) with hbw
    set iS := (h - 8 - 8) * (9 / 10) with hiS
    set colW := (bw - 10 * 2 - (iS + 10)) / 2 with hcolW
    set tX := m + 10 + (iS + 10) with htX
    have hcol : (9:ℚ) ≤ colW := by rw [hcolW]; linarith
    obtain ⟨lcP, lcB⟩ := leftColumn_props ts tX colW (ch - h + 8)
      (p.bind CompanyProfile.fee_ratio_landlord).isSome
      (p.bind CompanyProfile.fee_distribution_motoduke).isSome hcol
    obtain ⟨rcP, rcB⟩ := rightColumn_props ts (tX + colW) colW (ch - h + 8)
    constructor
    · refine ⟨?_, ?_⟩
      · rintro a (hmem | hmem)
        · exact noOv_of_left _ _
            (by simp only [Block.rect_text, Block.rect_image]; linarith [(lcB a hmem).1])
        · exact noOv_of_left _ _
            (by simp only [Block.rect_text, Block.rect_image]; linarith [(rcB a hmem).1])
      · exact pairwise_sep_append _ _ (tX + (colW - 5))
          (fun blk hb => (lcB blk hb).2.1)
          (fun blk hb => by have := (rcB blk hb).1; linarith)
          lcP rcP
    · refine ⟨?_, ?_⟩
      · refine ⟨?_, ?_, ?_, ?_⟩ <;> simp only [Block.rect_text, Block.rect_image] <;> linarith
      · rintro a (hmem | hmem)
        · have hb := lcB a hmem
          refine ⟨?_, ?_, ?_, ?_⟩ <;> simp only [Block.rect_text, Block.rect_image] <;>
            linarith [hb.1, hb.2.1, hb.2.2.1, hb.2.2.2]
        · have hb := rcB a hmem
          refine ⟨?_, ?_, ?_, ?_⟩ <;> simp only [Block.rect_text, Block.rect_image] <;>
            linarith [hb.1, hb.2.1, hb.2.2.1, hb.2.2.2]
  case true.true =>
    set m := (if ls = true then lw else (0:ℚ)) with hm
    set bw := (if ls = true then cw - lw else cw) with hbw
    set iS := (h - 8 - 8) * (9 / 10) with hiS
    set colW := (bw - 10 * 2 - (iS + 10) - (iS + 10)) / 2 with hcolW
    set tX := m + 10 + (iS + 10) with htX
    have hcol : (9:ℚ) ≤ colW := by rw [hcolW]; linarith
    obtain ⟨lcP, lcB⟩ := leftColumn_props ts tX colW (ch - h + 8)
      (p.bind CompanyProfile.fee_ratio_landlord).isSome
      (p.bind CompanyProfile.fee_distribution_motoduke).isSome hcol
    obtain ⟨rcP, rcB⟩ := rightColumn_props ts (tX + colW) colW (ch - h + 8)
    constructor
    · refine ⟨⟨?_, ?_⟩, ?_, ?_⟩
      · exact noOv_of_left _ _
          (by simp only [Block.rect_text, Block.rect_image]; linarith)
      · rintro a (hmem | hmem)
        · exact noOv_of_left _ _
            (by simp only [Block.rect_text, Block.rect_image]; linarith [(lcB a hmem).1])
        · exact noOv_of_left _ _
            (by simp only [Block.rect_text, Block.rect_image]; linarith [(rcB a hmem).1])
      · rintro a (hmem | hmem)
        · exact noOv_of_right _ _
            (by simp only [Block.rect_text, Block.rect_image]; linarith [(lcB a hmem).2.1])
        · exact noOv_of_right _ _
            (by simp only [Block.rect_text, Block.rect_image]; linarith [(rcB a hmem).2.1])
      · exact pairwise_sep_append _ _ (tX + (colW - 5))
          (fun blk hb => (lcB blk hb).2.1)
          (fun blk hb => by have := (rcB blk hb).1; linarith)
          lcP rcP
    · refine ⟨?_, ?_, ?_⟩
      · refine ⟨?_, ?_, ?_, ?_⟩ <;> simp only [Block.rect_text, Block.rect_image] <;> linarith
      · refine ⟨?_, ?_, ?_, ?_⟩ <;> simp only [Block.rect_text, Block.rect_image] <;> linarith
      · rintro a (hmem | hmem)
        · have hb := lcB a hmem
          refine ⟨?_, ?_, ?_, ?_⟩ <;> simp only [Block.rect_text, Block.rect_image] <;>
            linarith [hb.1, hb.2.1, hb.2.2.1, hb.2.2.2]
        · have hb := rcB a hmem
          refine ⟨?_, ?_, ?_, ?_⟩ <;> simp only [Block.rect_text, Block.rect_image] <;>
            linarith [hb.1, hb.2.1, hb.2.2.1, hb.2.2.2]

/-- C3 (witness): the amended statement applied to the default 600 x 800
page with a 100-high band and the full profile. -/
theorem c3_witness :
    (100 : ℚ) ≤ 100 ∧
    (List.Pairwise noOverlapRel (createInitialBlocks 600 800 100 0 false (some testProfileFull) 0) ∧
     allInsideBand (createInitialBlocks 600 800 100 0 false (some testProfileFull) 0)
       (editorBottomBand 600 800 100 0 false)) :=
  ⟨by norm_num, c3_layout 600 800 100 0 false (some testProfileFull) 0 (by norm_num)
    (by
      have hlogo : "logo.png".isEmpty = false := rfl
      have hqr : "qr.png".isEmpty = false := rfl
      norm_num [testProfileFull, truthy, Option.bind, hlogo, hqr])⟩

end Maisoku
